import Mathlib

/-!
Shallow embedding of the MarketPulse serverless handlers.

The news-aggregation handler lives in `netlify/functions/get-stock-data.js`
(second handler in that file): it fans out to several news sources, merges and
deduplicates the settled results by URL, scores each article
(market impact, sentiment, urgency), sorts by a composite key and returns a
JSON body; `getFallbackNews` is its static fallback payload.

The ad-optimizer module defines `AD_NETWORKS`, `calculateNetworkScore`,
`getRevenueOptimizedAd`, the per-network adapters and
`updatePerformanceMetrics`.

JavaScript numbers are modelled as exact rationals (`ℚ`), JS objects as
structures, absent values as `Option`, and the mutable module state as
explicitly threaded values.  Markup template strings (`html` fields) and
fields no property refers to (`relatedAssets`, `tradingImplications`,
`marketSummary`, `hourlyRevenue`, the static URL fields of the network
configuration) are omitted from the records; everything else follows the
source line by line.
-/

/-! ### JavaScript string primitives -/

/-- `hasSubstr pat s` is `String.prototype.includes`: does `pat` occur as a
contiguous substring of `s` (on the underlying character lists)? -/
def hasSubstr (pat : List Char) : List Char → Bool
  | [] => pat.isEmpty
  | c :: rest => pat.isPrefixOf (c :: rest) || hasSubstr pat rest

/-- JS `s.includes(pat)`. -/
def jsIncludes (s pat : String) : Bool :=
  hasSubstr pat.data s.data

/-- JS `s.toLowerCase()` (ASCII; every string in the handlers is ASCII).
`String.toLower` maps `Char.toLower` over the characters; we apply the map on
the underlying list directly so that the kernel can evaluate it. -/
def jsToLower (s : String) : String :=
  ⟨s.data.map Char.toLower⟩

/-- JS truthiness test for an optional string: `undefined` and `""` are falsy. -/
def jsFalsyStr : Option String → Bool
  | none => true
  | some t => t = ""

/-! ### Articles (news pipeline item shape) -/

/-- A news article as it flows through the aggregation handler.  `description`
is `""` when absent (the code reads `article.description || ''`);
`publishedAt` is the publish instant in milliseconds since the epoch. -/
structure Article where
  title : String
  description : String
  url : String
  publishedAt : ℚ
  deriving DecidableEq

/-- Lower-cased `title + ' ' + description`, the content string every keyword
scorer matches against. -/
def articleContent (a : Article) : String :=
  jsToLower (a.title ++ " " ++ a.description)

/-! ### analyzeMarketImpact (get-stock-data.js lines 177-197) -/

def highImpactKeywords : List String :=
  ["fed", "interest rates", "inflation", "earnings", "merger", "acquisition",
   "federal reserve", "ecb", "central bank", "gdp", "unemployment", "rate hike",
   "quarterly results", "profit", "revenue", "dividend"]

def mediumImpactKeywords : List String :=
  ["economic", "growth", "market", "trading", "investment", "forecast",
   "outlook", "analysis", "price target", "upgrade", "downgrade"]

/-- `highImpactKeywords.filter(k => content.includes(k)).length`. -/
def highImpactCount (a : Article) : ℕ :=
  (highImpactKeywords.filter (fun k => jsIncludes (articleContent a) k)).length

def mediumImpactCount (a : Article) : ℕ :=
  (mediumImpactKeywords.filter (fun k => jsIncludes (articleContent a) k)).length

def analyzeMarketImpact (a : Article) : String :=
  if 2 ≤ highImpactCount a then "high"
  else if 1 ≤ highImpactCount a ∨ 2 ≤ mediumImpactCount a then "medium"
  else "low"

/-! ### analyzeAdvancedSentiment (lines 199-220) -/

def positiveWords : List String :=
  ["gain", "rise", "profit", "growth", "bullish", "surge", "rally", "increase",
   "positive", "strong", "beat", "upgrade", "buy", "outperform", "success"]

def negativeWords : List String :=
  ["fall", "drop", "loss", "decline", "bearish", "slump", "plunge", "decrease",
   "negative", "weak", "miss", "downgrade", "sell", "underperform", "failure"]

def positiveCount (a : Article) : ℕ :=
  (positiveWords.filter (fun w => jsIncludes (articleContent a) w)).length

def negativeCount (a : Article) : ℕ :=
  (negativeWords.filter (fun w => jsIncludes (articleContent a) w)).length

/-- `positiveCount - negativeCount`, as a (signed) integer. -/
def sentimentScore (a : Article) : ℤ :=
  (positiveCount a : ℤ) - (negativeCount a : ℤ)

def analyzeAdvancedSentiment (a : Article) : String :=
  if 2 ≤ sentimentScore a then "positive"
  else if sentimentScore a ≤ -2 then "negative"
  else "neutral"

/-! ### calculateUrgencyScore (lines 262-279) -/

def breakingKeywords : List String :=
  ["breaking", "urgent", "immediate", "alert", "just in"]

/-- `breakingKeywords.some(k => article.title.toLowerCase().includes(k))`. -/
def hasBreakingTitle (a : Article) : Bool :=
  breakingKeywords.any (fun k => jsIncludes (jsToLower a.title) k)

/-- `now` is the current time in milliseconds since the epoch (the code reads
`new Date()`); `hoursDiff` is `(now - published) / (1000*60*60)`. -/
def calculateUrgencyScore (now : ℚ) (a : Article) : ℚ :=
  let hoursDiff : ℚ := (now - a.publishedAt) / (1000 * 60 * 60)
  let score : ℚ := max 0 (24 - hoursDiff) / 24
  let score2 : ℚ := if hasBreakingTitle a then score + 0.3 else score
  min 1 score2

/-! ### Fan-out results and the merge/dedup loop (lines 42-57) -/

/-- One settled entry of `Promise.allSettled(newsPromises)`: either fulfilled
with a value (which the handler additionally tests for truthiness, so the
value is an `Option`), or rejected. -/
inductive Settled where
  | fulfilled (v : Option (List Article))
  | rejected
  deriving DecidableEq

/-- The guard `result.status === 'fulfilled' && result.value`: a fulfilled
result with a non-null value contributes its articles. -/
def usableValue : Settled → Option (List Article)
  | .fulfilled (some v) => some v
  | .fulfilled none => none
  | .rejected => none

/-- All articles of the usable results, in adapter configuration order
(`Promise.allSettled` preserves the order of `newsPromises`). -/
def collectUsable (rs : List Settled) : List Article :=
  (rs.filterMap usableValue).flatten

/-- The inner merge loop: `seen` is the `seenUrls` set, and an article is kept
when `article.url && !seenUrls.has(article.url)`. -/
def dedupByUrl : List Article → List String → List Article
  | [], _ => []
  | a :: rest, seen =>
    if a.url ≠ "" ∧ a.url ∉ seen then a :: dedupByUrl rest (a.url :: seen)
    else dedupByUrl rest seen

/-- `allArticles` after the merge/dedup loop. -/
def mergeArticles (rs : List Settled) : List Article :=
  dedupByUrl (collectUsable rs) []

/-- Modelled from the spec: the Deduplicator/Merger contract of spec section
4.3, "keeping the first occurrence of each identity (later duplicates from
lower-priority sources are dropped silently)", written as a direct recursion to
be compared with the seen-set loop of the source. -/
def keepFirstByUrl : List Article → List Article
  | [] => []
  | a :: rest =>
    if a.url = "" then keepFirstByUrl rest
    else a :: keepFirstByUrl (rest.filter (fun b => b.url ≠ a.url))
termination_by l => l.length
decreasing_by
  · simp
  · have := List.length_filter_le (fun b => b.url ≠ a.url) rest
    simp only [List.length_cons]
    omega

/-! ### Scoring map and ranking (lines 59-74) -/

/-- An article after the enrichment map.  `relatedAssets` and
`tradingImplications` are omitted (no property below mentions them). -/
structure ScoredArticle where
  title : String
  description : String
  url : String
  publishedAt : ℚ
  marketImpact : String
  sentiment : String
  urgency : ℚ
  deriving DecidableEq

def scoreArticle (now : ℚ) (a : Article) : ScoredArticle :=
  { title := a.title
    description := a.description
    url := a.url
    publishedAt := a.publishedAt
    marketImpact := analyzeMarketImpact a
    sentiment := analyzeAdvancedSentiment a
    urgency := calculateUrgencyScore now a }

/-- `const impactScore = { high: 3, medium: 2, low: 1 }` (an unknown key would
read as `undefined` in JS; the map below only ever stores the three values). -/
def impactWeight : String → ℚ
  | "high" => 3
  | "medium" => 2
  | "low" => 1
  | _ => 0

/-- The comparator key: `impactScore[x.marketImpact] + x.urgency`. -/
def sortKey (sa : ScoredArticle) : ℚ :=
  impactWeight sa.marketImpact + sa.urgency

/-- `x` may precede `y` in the descending sort
(`(keyB - keyA)` comparator, i.e. sort descending by key).  `Array.sort` with
this comparator is modelled as a stable sort. -/
def newsRel (x y : ScoredArticle) : Prop :=
  sortKey y ≤ sortKey x

instance : DecidableRel newsRel := fun x y =>
  inferInstanceAs (Decidable (sortKey y ≤ sortKey x))

instance : IsTotal ScoredArticle newsRel :=
  ⟨fun x y => le_total (sortKey y) (sortKey x)⟩

instance : IsTrans ScoredArticle newsRel :=
  ⟨fun _ _ _ h1 h2 => le_trans h2 h1⟩

/-! ### The news handler (lines 30-95) -/

/-- The JSON body built by the news handler (the fields of the 200 response;
`analyzedAt` and `marketSummary` are omitted).  `errorMsg` is the optional
`error` field: the success body never sets it, the fallback body does. -/
structure NewsResponse where
  statusCode : ℕ
  articles : List ScoredArticle
  totalResults : ℕ
  sourcesUsed : List Bool
  errorMsg : Option String
  deriving DecidableEq

/-- Modelled from the spec: the fan-out list `newsPromises` has four source
adapters, the fourth being `fetchFallbackFinancialNews`, which is referenced by
the handler but absent from the repository sources.  Per spec section 4.1 a
Source Adapter settles with a list of items on success and with a failure
otherwise, so its settled outcome (like the other three) ranges over
`Settled`. -/
def newsFanOut (r1 r2 r3 r4 : Settled) : List Settled :=
  [r1, r2, r3, r4]

/-- The body of the news handler's `try` block: merge and deduplicate the
settled results, cap at `pageSize`, enrich, sort descending by
impact-plus-urgency.  None of these steps can throw, so the `catch` route to
`getFallbackNews` is unreachable from this path and the success body carries
no `error` field. -/
def newsHandler (pageSize : ℕ) (now : ℚ) (rs : List Settled) : NewsResponse :=
  let analyzed :=
    List.insertionSort newsRel (((mergeArticles rs).take pageSize).map (scoreArticle now))
  { statusCode := 200
    articles := analyzed
    totalResults := analyzed.length
    sourcesUsed := rs.map fun r => match r with | .fulfilled _ => true | .rejected => false
    errorMsg := none }

/-! ### getFallbackNews (lines 318-358) -/

/-- The two static fallback articles, with their hard-coded scores
(`publishedAt` is `new Date()`, passed in as `t`). -/
def fallbackArticles (t : ℚ) : List ScoredArticle :=
  [{ title := "Market Pulse: Key Economic Indicators to Watch This Week"
     description := "Professional traders are monitoring inflation data and central bank announcements for market direction signals."
     url := "#"
     publishedAt := t
     marketImpact := "medium"
     sentiment := "neutral"
     urgency := 0.5 },
   { title := "Technical Analysis: Major Support and Resistance Levels"
     description := "Key technical levels being tested across major indices and currency pairs in current session."
     url := "#"
     publishedAt := t
     marketImpact := "low"
     sentiment := "neutral"
     urgency := 0.3 }]

/-- The fallback body: status 200, the fixed articles, and the explanatory
`error` field. -/
def getFallbackNews (t : ℚ) : NewsResponse :=
  { statusCode := 200
    articles := fallbackArticles t
    totalResults := (fallbackArticles t).length
    sourcesUsed := [false, false, false, true]
    errorMsg := some "Using fallback news data" }

/-! ### fetchNewsAPI (lines 97-117) -/

/-- Outcome of the one upstream HTTPS call an adapter makes: a network or HTTP
failure, or a response whose `data.articles` field may be absent (the code
reads `response.data.articles || []`). -/
inductive UpstreamNews where
  | failure
  | response (articles : Option (List Article))
  deriving DecidableEq

/-- `fetchNewsAPI`: if `process.env.NEWS_API_KEY` is falsy the adapter returns
`[]` immediately; otherwise it performs the call and returns the article list,
or `[]` on any error.  The first component records whether the upstream call
was attempted; the request parameters (category, half page size, query) do not
influence the shape of the result and are not modelled. -/
def fetchNewsAPI (newsApiKey : Option String) (upstream : UpstreamNews) :
    Bool × List Article :=
  if jsFalsyStr newsApiKey then (false, [])
  else
    match upstream with
    | .failure => (true, [])
    | .response arts => (true, arts.getD [])

/-! ### Ad optimizer: network configuration (part_000 lines 4-52) -/

/-- One `AD_NETWORKS` entry.  The static string fields (`scriptUrl`, `apiUrl`,
`adapter`, `paymentMethod`) play no part in the selection logic and are
omitted. -/
structure Config where
  name : String
  enabled : Bool
  revenueScore : ℚ
  loadTime : ℚ
  fillRate : ℚ
  priority : ℕ
  paymentThreshold : ℚ
  deriving DecidableEq

def adsenseConfig : Config :=
  { name := "Google AdSense", enabled := true, revenueScore := 0.9,
    loadTime := 120, fillRate := 0.85, priority := 1, paymentThreshold := 100 }

def propellerConfig : Config :=
  { name := "PropellerAds", enabled := true, revenueScore := 0.7,
    loadTime := 180, fillRate := 0.75, priority := 2, paymentThreshold := 50 }

def adsterraConfig : Config :=
  { name := "Adsterra", enabled := true, revenueScore := 0.65,
    loadTime := 200, fillRate := 0.80, priority := 3, paymentThreshold := 25 }

def medianetConfig : Config :=
  { name := "Media.net", enabled := true, revenueScore := 0.75,
    loadTime := 150, fillRate := 0.78, priority := 2, paymentThreshold := 100 }

/-- `Object.entries(AD_NETWORKS)` in insertion order. -/
def AD_NETWORKS : List (String × Config) :=
  [("adsense", adsenseConfig), ("propellerads", propellerConfig),
   ("adsterra", adsterraConfig), ("medianet", medianetConfig)]

/-! ### Revenue metrics state (lines 54-60, 405-433) -/

/-- One `networkPerformance` record, field order as in the source object
literal. -/
structure Perf where
  successRate : ℚ
  totalRevenue : ℚ
  requests : ℕ
  successes : ℕ
  deriving DecidableEq

/-- The fresh record `{ successRate: 0.8, totalRevenue: 0, requests: 0,
successes: 0 }`. -/
def freshPerf : Perf :=
  { successRate := 0.8, totalRevenue := 0, requests := 0, successes := 0 }

/-- The module-level `revenueMetrics` object.  `networkPerformance` is a JS
object used as a map, modelled as an association list in insertion order;
`hourlyRevenue` is never read and is omitted. -/
structure RevenueMetrics where
  totalRevenue : ℚ
  networkPerformance : List (String × Perf)
  bestPerforming : String
  deriving DecidableEq

def initialRevenueMetrics : RevenueMetrics :=
  { totalRevenue := 0, networkPerformance := [], bestPerforming := "adsense" }

/-- Replace the entry of key `k` (which is present) by `p`, keeping the key
order — in the source the record is mutated in place. -/
def setPerf (np : List (String × Perf)) (k : String) (p : Perf) :
    List (String × Perf) :=
  np.map fun e => if e.1 = k then (k, p) else e

/-- `revenueMetrics.networkPerformance[a].totalRevenue` with the lookup that
the `reduce` in `updatePerformanceMetrics` performs (every key it visits is
present). -/
def lookupRev (np : List (String × Perf)) (k : String) : ℚ :=
  ((np.lookup k).getD freshPerf).totalRevenue

/-- `updatePerformanceMetrics(networkKey, success, revenue)` (lines 405-433):
create the record if missing, increment `requests`, on success increment
`successes` and add the revenue (also to the global total), recompute
`successRate = successes / requests`, and recompute `bestPerforming` by a
`reduce` over the stored keys. -/
def updatePerformanceMetrics (m : RevenueMetrics) (k : String) (success : Bool)
    (revenue : ℚ) : RevenueMetrics :=
  let np0 := match m.networkPerformance.lookup k with
    | some _ => m.networkPerformance
    | none => m.networkPerformance ++ [(k, freshPerf)]
  let p0 := (np0.lookup k).getD freshPerf
  let p1 := { p0 with requests := p0.requests + 1 }
  let p2 := if success then
      { p1 with successes := p1.successes + 1, totalRevenue := p1.totalRevenue + revenue }
    else p1
  let p3 := { p2 with successRate := (p2.successes : ℚ) / (p2.requests : ℚ) }
  let np1 := setPerf np0 k p3
  { totalRevenue := m.totalRevenue + (if success then revenue else 0)
    networkPerformance := np1
    bestPerforming :=
      match np1.map Prod.fst with
      | [] => m.bestPerforming
      | h :: t => t.foldl (fun a b => if lookupRev np1 b < lookupRev np1 a then a else b) h }

/-! ### calculateNetworkScore (lines 124-143) -/

/-- The weighted score of one network given its configuration and its
(possibly absent) performance record.  Note `performance.successRate || 0.8`:
a *zero* success rate is falsy in JS and is replaced by the 0.8 default. -/
def networkScore (config : Config) (perf : Option Perf) : ℚ :=
  let performance := perf.getD { successRate := 0.8, totalRevenue := 0, requests := 0, successes := 0 }
  let revenueScore := min (performance.totalRevenue / 1000) 1
  let successScore := if performance.successRate = 0 then 0.8 else performance.successRate
  let speedScore := (1000 - config.loadTime) / 1000
  let fillScore := config.fillRate
  revenueScore * 0.4 + successScore * 0.3 + speedScore * 0.2 + fillScore * 0.1

/-- `calculateNetworkScore(networkKey)`: look the configuration up in
`AD_NETWORKS` and the performance record up in the module state.  (The source
would produce `NaN` for a key outside the table; it is only ever called with
table keys, and the default configuration is irrelevant.) -/
def calculateNetworkScore (m : RevenueMetrics) (k : String) : ℚ :=
  networkScore ((AD_NETWORKS.lookup k).getD adsenseConfig) (m.networkPerformance.lookup k)

/-! ### Network ranking (lines 90-107) -/

/-- The score of an `Object.entries` pair under metrics `m` (for pairs taken
from `AD_NETWORKS`, `calculateNetworkScore` computes exactly this). -/
def entryScore (m : RevenueMetrics) (e : String × Config) : ℚ :=
  networkScore e.2 (m.networkPerformance.lookup e.1)

/-- `x` may precede `y` under the descending comparator
`scoreB - scoreA`. -/
def adRel (m : RevenueMetrics) (x y : String × Config) : Prop :=
  entryScore m y ≤ entryScore m x

instance (m : RevenueMetrics) : DecidableRel (adRel m) := fun x y =>
  inferInstanceAs (Decidable (entryScore m y ≤ entryScore m x))

instance (m : RevenueMetrics) : IsTotal (String × Config) (adRel m) :=
  ⟨fun x y => le_total (entryScore m y) (entryScore m x)⟩

instance (m : RevenueMetrics) : IsTrans (String × Config) (adRel m) :=
  ⟨fun _ _ _ h1 h2 => le_trans h2 h1⟩

/-- Filter the enabled entries and sort them by descending dynamic score
(`Array.sort` modelled as a stable sort); generic in the entries list, of
which `enabledNetworks` below is the instantiation used by the handler. -/
def rankEntries (entries : List (String × Config)) (m : RevenueMetrics) :
    List (String × Config) :=
  List.insertionSort (adRel m) (entries.filter fun e => e.2.enabled)

/-- `enabledNetworks` of `getRevenueOptimizedAd`. -/
def enabledNetworks (m : RevenueMetrics) : List (String × Config) :=
  rankEntries AD_NETWORKS m

/-- The keys the attempt loop visits, in order. -/
def rankedKeys (m : RevenueMetrics) : List String :=
  (enabledNetworks m).map Prod.fst

/-! ### Ad adapters (part_000 lines 162-403) -/

/-- The result object of an ad adapter (the `html` template string is
omitted).  Every concrete adapter in the source sets `success: true`
unconditionally — none of them makes an upstream call, checks a credential, or
has a failure path. -/
structure Ad where
  success : Bool
  network : String
  revenueScore : ℚ
  loadTime : ℚ
  estimatedRevenue : ℚ
  deriving DecidableEq

/-- The environment variables the ad module reads.  `none` models an unset
variable (its value would be interpolated into the markup as `undefined`). -/
structure AdEnv where
  googleAdsenseClient : Option String
  propellerAdsApiKey : Option String
  adsterraApiKey : Option String
  mediaNetCustomer : Option String
  deriving DecidableEq

/-- `adsenseAdapter(type, placement)` (lines 163-209): picks the ad unit by
type (`adUnits[type] || adUnits.banner`), embeds `env.googleAdsenseClient`
into the markup whether present or not, and returns `success: true`. -/
def adsenseAdapter (env : AdEnv) (ty : String) : Ad :=
  let estimatedRevenue : ℚ :=
    if ty = "incontent" then 1.2 else if ty = "sidebar" then 0.5 else 0.8
  { success := true, network := "adsense",
    revenueScore := adsenseConfig.revenueScore,
    loadTime := adsenseConfig.loadTime,
    estimatedRevenue := estimatedRevenue }

/-- `propellerAdsAdapter` (lines 212-278): `adFormats[type] ||
adFormats.banner`, always `success: true`. -/
def propellerAdsAdapter (env : AdEnv) (ty : String) : Ad :=
  let estimatedRevenue : ℚ :=
    if ty = "popunder" then 0.9 else if ty = "inpage" then 0.7 else 0.6
  { success := true, network := "propellerads",
    revenueScore := propellerConfig.revenueScore,
    loadTime := propellerConfig.loadTime,
    estimatedRevenue := estimatedRevenue }

/-- `adsterraAdapter` (lines 281-345). -/
def adsterraAdapter (env : AdEnv) (ty : String) : Ad :=
  let estimatedRevenue : ℚ :=
    if ty = "popunder" then 0.8 else if ty = "native" then 0.6 else 0.5
  { success := true, network := "adsterra",
    revenueScore := adsterraConfig.revenueScore,
    loadTime := adsterraConfig.loadTime,
    estimatedRevenue := estimatedRevenue }

/-- `mediaNetAdapter` (lines 348-381). -/
def mediaNetAdapter (env : AdEnv) (ty : String) : Ad :=
  { success := true, network := "medianet",
    revenueScore := medianetConfig.revenueScore,
    loadTime := medianetConfig.loadTime,
    estimatedRevenue := 0.7 }

/-- `generateAd(networkKey, type, placement)` (lines 145-160): dispatch on the
network key, `null` for an unknown key. -/
def generateAd (env : AdEnv) (k ty : String) : Option Ad :=
  if k = "adsense" then some (adsenseAdapter env ty)
  else if k = "propellerads" then some (propellerAdsAdapter env ty)
  else if k = "adsterra" then some (adsterraAdapter env ty)
  else if k = "medianet" then some (mediaNetAdapter env ty)
  else none

/-- `getFallbackAd` (lines 383-403), markup omitted. -/
def getFallbackAd : Ad :=
  { success := true, network := "fallback", revenueScore := 0.3,
    loadTime := 100, estimatedRevenue := 0 }

/-! ### The attempt loop of getRevenueOptimizedAd (lines 108-122) -/

/-- Outcome of `await generateAd(...)` for one network: a returned value
(possibly `null`) or a thrown error caught by the surrounding `catch`. -/
inductive AttemptResult where
  | ret (ad : Option Ad)
  | exn
  deriving DecidableEq

/-- The attempt returned a non-null ad with `success: true` — what every
adapter of the source in fact produces (`generateAd_success` below). -/
def okAttempt : AttemptResult → Bool
  | .ret (some ad) => ad.success
  | .ret none => false
  | .exn => true

/-- Is this attempt a thrown error? -/
def isExnAttempt (outcome : String → AttemptResult) (k : String) : Bool :=
  match outcome k with
  | .exn => true
  | .ret _ => false

/-- `updatePerformanceMetrics(networkKey, false, 0)` — the `catch` branch. -/
def failUpd (m : RevenueMetrics) (k : String) : RevenueMetrics :=
  updatePerformanceMetrics m k false 0

/-- The `for` loop over the ranked networks: on a returned ad with
`ad && ad.success` record a success and return it; on a thrown error record a
failure and continue; on a returned falsy/unsuccessful ad just continue (no
adapter of the source takes that path).  Returns the chosen ad, if any, with
the final metrics state. -/
def selectLoop (outcome : String → AttemptResult) :
    RevenueMetrics → List String → Option Ad × RevenueMetrics
  | m, [] => (none, m)
  | m, k :: rest =>
    match outcome k with
    | .exn => selectLoop outcome (failUpd m k) rest
    | .ret none => selectLoop outcome m rest
    | .ret (some ad) =>
      if ad.success then (some ad, updatePerformanceMetrics m k true ad.estimatedRevenue)
      else selectLoop outcome m rest

/-- `getRevenueOptimizedAd`: rank the enabled networks by descending score,
run the attempt loop, and fall back to `getFallbackAd` when no network
succeeds. -/
def getRevenueOptimizedAd (outcome : String → AttemptResult)
    (m : RevenueMetrics) : Ad × RevenueMetrics :=
  match selectLoop outcome m (rankedKeys m) with
  | (some ad, m1) => (ad, m1)
  | (none, m1) => (getFallbackAd, m1)

/-! ### Lemmas about the merge/dedup loop -/

theorem dedupByUrl_sublist : ∀ (l : List Article) (seen : List String),
    List.Sublist (dedupByUrl l seen) l
  | [], _ => List.Sublist.refl _
  | a :: rest, seen => by
    unfold dedupByUrl
    split
    · exact (dedupByUrl_sublist rest _).cons₂ a
    · exact (dedupByUrl_sublist rest _).cons a

theorem mem_dedupByUrl : ∀ (l : List Article) (seen : List String),
    ∀ a ∈ dedupByUrl l seen, a.url ≠ "" ∧ a.url ∉ seen
  | [], _ => by simp [dedupByUrl]
  | b :: rest, seen => by
    unfold dedupByUrl
    split
    · rename_i hb
      intro a ha
      rcases List.mem_cons.mp ha with rfl | ha
      · exact hb
      · have := mem_dedupByUrl rest (b.url :: seen) a ha
        refine ⟨this.1, fun hmem => this.2 (List.mem_cons_of_mem _ hmem)⟩
    · exact mem_dedupByUrl rest seen

theorem dedupByUrl_urls_nodup : ∀ (l : List Article) (seen : List String),
    ((dedupByUrl l seen).map (fun a => a.url)).Nodup
  | [], _ => by simp [dedupByUrl]
  | b :: rest, seen => by
    unfold dedupByUrl
    split
    · rename_i hb
      refine List.Nodup.cons ?_ (dedupByUrl_urls_nodup rest (b.url :: seen))
      intro hmem
      rcases List.mem_map.mp hmem with ⟨a, ha, hurl⟩
      exact (mem_dedupByUrl rest (b.url :: seen) a ha).2 (hurl ▸ List.mem_cons_self _ _)
    · exact dedupByUrl_urls_nodup rest seen

theorem dedupByUrl_eq_keepFirst : ∀ (l : List Article) (seen : List String),
    dedupByUrl l seen = keepFirstByUrl (l.filter fun a => decide (a.url ∉ seen))
  | [], _ => by simp [dedupByUrl, keepFirstByUrl]
  | a :: rest, seen => by
    by_cases hmem : a.url ∈ seen
    · have h1 : dedupByUrl (a :: rest) seen = dedupByUrl rest seen := by
        rw [dedupByUrl, if_neg]
        simp [hmem]
      have h2 : (a :: rest).filter (fun b => decide (b.url ∉ seen))
          = rest.filter (fun b => decide (b.url ∉ seen)) := by
        rw [List.filter_cons]
        simp [hmem]
      rw [h1, h2]
      exact dedupByUrl_eq_keepFirst rest seen
    · have h2 : (a :: rest).filter (fun b => decide (b.url ∉ seen))
          = a :: rest.filter (fun b => decide (b.url ∉ seen)) := by
        rw [List.filter_cons]
        simp [hmem]
      rw [h2]
      by_cases hnil : a.url = ""
      · have h1 : dedupByUrl (a :: rest) seen = dedupByUrl rest seen := by
          rw [dedupByUrl, if_neg]
          simp [hnil]
        have h3 : keepFirstByUrl (a :: rest.filter (fun b => decide (b.url ∉ seen)))
            = keepFirstByUrl (rest.filter (fun b => decide (b.url ∉ seen))) := by
          rw [keepFirstByUrl]
          simp [hnil]
        rw [h1, h3]
        exact dedupByUrl_eq_keepFirst rest seen
      · have h1 : dedupByUrl (a :: rest) seen
            = a :: dedupByUrl rest (a.url :: seen) := by
          rw [dedupByUrl, if_pos ⟨hnil, hmem⟩]
        have h3 : keepFirstByUrl (a :: rest.filter (fun b => decide (b.url ∉ seen)))
            = a :: keepFirstByUrl ((rest.filter (fun b => decide (b.url ∉ seen))).filter
                (fun b => b.url ≠ a.url)) := by
          rw [keepFirstByUrl]
          simp [hnil]
        have hff : (rest.filter fun b => decide (b.url ∉ seen)).filter
              (fun b => b.url ≠ a.url)
            = rest.filter fun b => decide (b.url ∉ a.url :: seen) := by
          rw [List.filter_filter]
          apply List.filter_congr
          intro b _
          have hiff : (b.url ∉ a.url :: seen) ↔ (b.url ≠ a.url ∧ b.url ∉ seen) := by
            simp [List.mem_cons, not_or]
          simp [hiff, Bool.and_comm]
        rw [h1, h3, hff]
        exact congrArg _ (dedupByUrl_eq_keepFirst rest (a.url :: seen))

theorem mergeArticles_eq_keepFirst (rs : List Settled) :
    mergeArticles rs = keepFirstByUrl (collectUsable rs) := by
  rw [mergeArticles, dedupByUrl_eq_keepFirst]
  congr 1
  apply List.filter_eq_self.mpr
  intro a _
  simp

/-! ### Ordering helper: a pairwise-sorted list keeps a strictly better
element in front of a strictly worse one -/

theorem pairwise_pair_sublist {α : Type} {r : α → α → Prop} {a b : α} :
    ∀ {l : List α}, l.Pairwise r →
      a ∈ l → b ∈ l → a ≠ b → ¬ r b a → List.Sublist [a, b] l := by
  intro l
  induction l with
  | nil => intro _ ha _ _ _; exact absurd ha (List.not_mem_nil a)
  | cons x t ih =>
    intro hp ha hb hab hnr
    rcases List.pairwise_cons.mp hp with ⟨hx, ht⟩
    rcases List.mem_cons.mp ha with rfl | ha2
    · have hb2 : b ∈ t := by
        rcases List.mem_cons.mp hb with heq | hb2
        · exact absurd heq.symm hab
        · exact hb2
      exact (List.singleton_sublist.mpr hb2).cons₂ a
    · rcases List.mem_cons.mp hb with rfl | hb2
      · exact absurd (hx a ha2) hnr
      · exact (ih ht ha2 hb2 hab hnr).cons x

/-! ### Monotonicity of the network score away from the zero-successRate
default -/

theorem networkScore_lt_of_dominates (cA cB : Config) (pA pB : Perf)
    (hlt : cA.loadTime = cB.loadTime) (hfr : cA.fillRate = cB.fillRate)
    (hrev : pB.totalRevenue < pA.totalRevenue)
    (hsr : pB.successRate < pA.successRate) (hpos : 0 < pB.successRate) :
    networkScore cB (some pB) < networkScore cA (some pA) := by
  have hA0 : ¬ pA.successRate = 0 := by
    intro h
    rw [h] at hsr
    exact absurd (lt_trans hpos hsr) (lt_irrefl 0)
  have hB0 : ¬ pB.successRate = 0 := ne_of_gt hpos
  unfold networkScore
  simp only [Option.getD_some, if_neg hA0, if_neg hB0, hlt, hfr]
  have hmin : min (pB.totalRevenue / 1000) 1 ≤ min (pA.totalRevenue / 1000) 1 := by
    have : pB.totalRevenue / 1000 ≤ pA.totalRevenue / 1000 := by linarith
    exact min_le_min this (le_refl 1)
  linarith

/-! ### Lemmas about the performance-record map -/

theorem lookup_setPerf_ne (k k' : String) (p : Perf) (h : k' ≠ k) :
    ∀ np : List (String × Perf), (setPerf np k p).lookup k' = np.lookup k'
  | [] => rfl
  | e :: rest => by
    simp only [setPerf, List.map_cons]
    by_cases he : e.1 = k
    · rw [if_pos he, List.lookup_cons, List.lookup_cons]
      have h1 : (k' == k) = false := beq_false_of_ne h
      have h2 : (k' == e.1) = false := beq_false_of_ne (he ▸ h)
      rw [h1, h2]
      exact lookup_setPerf_ne k k' p h rest
    · rw [if_neg he, List.lookup_cons, List.lookup_cons]
      cases hbe : (k' == e.1) with
      | true => rfl
      | false => exact lookup_setPerf_ne k k' p h rest

theorem lookup_setPerf_eq (k : String) (p : Perf) :
    ∀ np : List (String × Perf), (np.lookup k).isSome →
      (setPerf np k p).lookup k = some p
  | [] => by intro h; simp [List.lookup] at h
  | e :: rest => by
    intro h
    simp only [setPerf, List.map_cons]
    by_cases he : e.1 = k
    · rw [if_pos he, List.lookup_cons]
      simp
    · rw [if_neg he, List.lookup_cons]
      have h2 : (k == e.1) = false := beq_false_of_ne fun hh => he hh.symm
      rw [h2]
      apply lookup_setPerf_eq k p rest
      rw [List.lookup_cons, h2] at h
      exact h

theorem lookup_append_ne (k k' : String) (p : Perf) (h : k' ≠ k) :
    ∀ np : List (String × Perf), (np ++ [(k, p)]).lookup k' = np.lookup k'
  | [] => by
    simp only [List.nil_append, List.lookup_cons, beq_false_of_ne h]
  | ⟨ek, ev⟩ :: rest => by
    simp only [List.cons_append, List.lookup_cons]
    cases k' == ek with
    | true => rfl
    | false => exact lookup_append_ne k k' p h rest

theorem lookup_append_self (k : String) (p : Perf) :
    ∀ np : List (String × Perf), np.lookup k = none →
      (np ++ [(k, p)]).lookup k = some p
  | [] => by simp [List.lookup]
  | ⟨ek, ev⟩ :: rest => by
    intro h
    rw [List.lookup_cons] at h
    simp only [List.cons_append, List.lookup_cons]
    cases hbe : k == ek with
    | true => rw [hbe] at h; exact absurd h (by simp)
    | false =>
      rw [hbe] at h
      exact lookup_append_self k p rest h

/-- A record update leaves every other network's record untouched. -/
theorem updatePerformanceMetrics_lookup_ne (m : RevenueMetrics) (k k' : String)
    (s : Bool) (rev : ℚ) (h : k' ≠ k) :
    ((updatePerformanceMetrics m k s rev).networkPerformance).lookup k'
      = m.networkPerformance.lookup k' := by
  unfold updatePerformanceMetrics
  cases hl : m.networkPerformance.lookup k with
  | some p => simp only [hl, lookup_setPerf_ne k k' _ h]
  | none =>
    simp only [hl, lookup_setPerf_ne k k' _ h]
    exact lookup_append_ne k k' _ h m.networkPerformance

/-- The update of an attempted network with an existing record: `requests` is
incremented, and on success `successes` and the revenue totals grow. -/
theorem updatePerformanceMetrics_lookup_eq (m : RevenueMetrics) (k : String)
    (s : Bool) (rev : ℚ) (p : Perf) (h : m.networkPerformance.lookup k = some p) :
    ((updatePerformanceMetrics m k s rev).networkPerformance).lookup k
      = some { successRate := ((if s then p.successes + 1 else p.successes : ℕ) : ℚ)
                 / ((p.requests + 1 : ℕ) : ℚ)
               totalRevenue := if s then p.totalRevenue + rev else p.totalRevenue
               requests := p.requests + 1
               successes := if s then p.successes + 1 else p.successes } := by
  unfold updatePerformanceMetrics
  simp only [h]
  rw [lookup_setPerf_eq _ _ _ (by simp [h])]
  cases s with
  | true => simp
  | false => simp

/-- A fresh record after a first attempt. -/
theorem updatePerformanceMetrics_lookup_fresh (m : RevenueMetrics) (k : String)
    (s : Bool) (rev : ℚ) (h : m.networkPerformance.lookup k = none) :
    ((updatePerformanceMetrics m k s rev).networkPerformance).lookup k
      = some { successRate := ((if s then 1 else 0 : ℕ) : ℚ)
               totalRevenue := if s then rev else 0
               requests := 1
               successes := if s then 1 else 0 } := by
  unfold updatePerformanceMetrics
  simp only [h]
  rw [lookup_setPerf_eq _ _ _ (by simp [lookup_append_self k _ _ h])]
  rw [lookup_append_self k _ _ h]
  cases s with
  | true => simp [freshPerf]
  | false => simp [freshPerf]

theorem foldl_failUpd_lookup_ne (k : String) :
    ∀ (keys : List String) (m : RevenueMetrics), k ∉ keys →
      ((keys.foldl failUpd m).networkPerformance).lookup k
        = m.networkPerformance.lookup k
  | [], m, _ => rfl
  | j :: rest, m, h => by
    have hj : k ≠ j := fun hh => h (hh ▸ List.mem_cons_self j rest)
    have hrest : k ∉ rest := fun hh => h (List.mem_cons_of_mem j hh)
    rw [List.foldl_cons]
    rw [foldl_failUpd_lookup_ne k rest (failUpd m j) hrest]
    exact updatePerformanceMetrics_lookup_ne m j k false 0 hj

/-! ### The attempt loop, characterized -/

/-- The value of a non-thrown attempt (`null` for the unknown-key path). -/
def adOfAttempt : AttemptResult → Option Ad
  | .ret a => a
  | .exn => none

/-- `ad.estimatedRevenue || 0` of a successful attempt. -/
def revOfAttempt : AttemptResult → ℚ
  | .ret (some ad) => ad.estimatedRevenue
  | .ret none => 0
  | .exn => 0

/-- Every adapter reachable from `generateAd` returns a non-null ad with
`success: true`; failures can only enter the loop as thrown errors. -/
theorem generateAd_success (env : AdEnv) (ty k : String)
    (h : k ∈ ["adsense", "propellerads", "adsterra", "medianet"]) :
    ∃ ad, generateAd env k ty = some ad ∧ ad.success = true := by
  fin_cases h <;>
    exact ⟨_, rfl, rfl⟩

/-- The loop tries the keys in order: it records a failed attempt for every
leading thrown attempt, then either returns the first successful ad after
recording its success, or runs out of networks having recorded every
failure. -/
theorem selectLoop_spec (outcome : String → AttemptResult) :
    ∀ (keys : List String) (m : RevenueMetrics),
      (∀ k ∈ keys, okAttempt (outcome k) = true) →
      selectLoop outcome m keys =
        match keys.dropWhile (isExnAttempt outcome) with
        | [] => (none, (keys.takeWhile (isExnAttempt outcome)).foldl failUpd m)
        | k :: _ =>
          (adOfAttempt (outcome k),
           updatePerformanceMetrics
             ((keys.takeWhile (isExnAttempt outcome)).foldl failUpd m)
             k true (revOfAttempt (outcome k)))
  | [], m, _ => by simp [selectLoop]
  | k :: rest, m, hOk => by
    have hrest : ∀ j ∈ rest, okAttempt (outcome j) = true := fun j hj =>
      hOk j (List.mem_cons_of_mem k hj)
    cases hout : outcome k with
    | exn =>
      have hex : isExnAttempt outcome k = true := by simp [isExnAttempt, hout]
      simp only [selectLoop, hout, List.dropWhile_cons, List.takeWhile_cons, hex,
        if_pos, List.foldl_cons]
      exact selectLoop_spec outcome rest (failUpd m k) hrest
    | ret a =>
      have hk := hOk k (List.mem_cons_self k rest)
      rw [hout] at hk
      cases a with
      | none => simp [okAttempt] at hk
      | some ad =>
        have hs : ad.success = true := hk
        have hex : isExnAttempt outcome k = false := by simp [isExnAttempt, hout]
        simp only [selectLoop, hout, hs, if_pos, List.dropWhile_cons,
          List.takeWhile_cons, hex, Bool.false_eq_true, if_neg, List.foldl_nil,
          adOfAttempt, revOfAttempt]
        simp [hout]

/-! ### Claim C1 — all sources failing does NOT reach the fallback payload -/

/-- C1: the claim states that when every Source Adapter fails the handler
still answers 200 with the Fallback Provider's payload and an `error`
indicator.  On the code this is false: adapters that fail settle with empty
(or rejected) results, the merge then yields `[]`, and the success path
returns `articles: []` with **no** `error` field — `getFallbackNews` (whose
body does carry the `error` string) is reachable only from the `catch` of a
thrown exception, which no step of the merge/score path produces.  This
theorem evaluates the handler on the all-sources-failed scenario and contrasts
it with the fallback body, exhibiting the divergence. -/
theorem news_allSourcesFailed_returns_empty_success_body
    (n : ℕ) (t : ℚ) (rs : List Settled) (h : collectUsable rs = []) :
    (newsHandler n t rs).statusCode = 200 ∧
    (newsHandler n t rs).articles = [] ∧
    (newsHandler n t rs).errorMsg = none ∧
    (getFallbackNews t).errorMsg = some "Using fallback news data" ∧
    (getFallbackNews t).articles ≠ [] := by
  have hm : mergeArticles rs = [] := by rw [mergeArticles, h]; rfl
  refine ⟨rfl, ?_, rfl, rfl, by simp [getFallbackNews, fallbackArticles]⟩
  simp [newsHandler, hm]

/-- C1 witness: four settled results carrying no usable item (three failed
adapters that returned `[]` and a rejected fourth) produce the empty success
body without an error field. -/
theorem news_allSourcesFailed_witness :
    (newsHandler 15 0 (newsFanOut (.fulfilled (some [])) (.fulfilled (some []))
        (.fulfilled (some [])) .rejected)).errorMsg = none :=
  (news_allSourcesFailed_returns_empty_success_body 15 0 _ (by decide)).2.2.1

/-! ### Claim C2 — merge keeps the first occurrence of each URL -/

/-- C2: the merged list carries no duplicate URL, equals the
keep-first-occurrence fold of the usable items in adapter configuration
order (so a URL seen by an earlier source shadows later duplicates), preserves
first-seen order (it is a sublist of the concatenated usable items), and the
handler's final article list still has pairwise distinct URLs after capping,
scoring and sorting. -/
theorem news_merge_dedup_first_occurrence (n : ℕ) (t : ℚ) (rs : List Settled) :
    mergeArticles rs = keepFirstByUrl (collectUsable rs) ∧
    ((mergeArticles rs).map (fun a => a.url)).Nodup ∧
    List.Sublist (mergeArticles rs) (collectUsable rs) ∧
    (((newsHandler n t rs).articles).map (fun sa => sa.url)).Nodup := by
  refine ⟨mergeArticles_eq_keepFirst rs, dedupByUrl_urls_nodup _ _,
    dedupByUrl_sublist _ _, ?_⟩
  have harts : (newsHandler n t rs).articles
      = List.insertionSort newsRel (((mergeArticles rs).take n).map (scoreArticle t)) := rfl
  rw [harts]
  have hperm : List.Perm
      (List.insertionSort newsRel (((mergeArticles rs).take n).map (scoreArticle t)))
      (((mergeArticles rs).take n).map (scoreArticle t)) :=
    List.perm_insertionSort _ _
  have hpermmap := hperm.map (fun sa => sa.url)
  have hcomp : ((((mergeArticles rs).take n).map (scoreArticle t)).map (fun sa => sa.url))
      = ((mergeArticles rs).take n).map (fun a => a.url) := by
    rw [List.map_map]
    rfl
  have htake : (((mergeArticles rs).take n).map (fun a => a.url)).Nodup := by
    rw [List.map_take]
    exact (List.take_sublist n _).nodup (dedupByUrl_urls_nodup _ _)
  rw [hcomp] at hpermmap
  exact hpermmap.nodup_iff.mpr htake

/-! ### Claim C10 — items without a URL are dropped by the merge -/

/-- C10: every merged article has a non-empty `url` (the merge guard
`article.url && ...` silently discards URL-less items), the property persists
into the handler's response, and the response length counts only merged
(URL-carrying, deduplicated) articles — the page-size cap is applied after the
merge. -/
theorem merged_articles_url_nonempty (n : ℕ) (t : ℚ) (rs : List Settled) :
    (∀ a ∈ mergeArticles rs, a.url ≠ "") ∧
    (∀ sa ∈ (newsHandler n t rs).articles, sa.url ≠ "") ∧
    (newsHandler n t rs).articles.length = min n (mergeArticles rs).length := by
  refine ⟨fun a ha => (mem_dedupByUrl _ _ a ha).1, ?_, ?_⟩
  · intro sa hsa
    have harts : (newsHandler n t rs).articles
        = List.insertionSort newsRel (((mergeArticles rs).take n).map (scoreArticle t)) := rfl
    rw [harts] at hsa
    have hmem := (List.perm_insertionSort newsRel _).mem_iff.mp hsa
    rcases List.mem_map.mp hmem with ⟨a, hatake, rfl⟩
    have hamerge : a ∈ mergeArticles rs := (List.take_sublist n _).mem hatake
    exact (mem_dedupByUrl _ _ a hamerge).1
  · have harts : (newsHandler n t rs).articles
        = List.insertionSort newsRel (((mergeArticles rs).take n).map (scoreArticle t)) := rfl
    rw [harts, (List.perm_insertionSort newsRel _).length_eq, List.length_map,
      List.length_take]

/-- C10 witness: a concrete usable article with a non-empty URL survives the
merge and indeed has a non-empty URL. -/
theorem merged_articles_url_nonempty_witness :
    ({ title := "w", description := "", url := "https-w", publishedAt := 0 } : Article).url ≠ "" :=
  (merged_articles_url_nonempty 15 0
      [.fulfilled (some [{ title := "w", description := "", url := "https-w", publishedAt := 0 }])]).1
    _ (by decide)

/-! ### Example articles for the scorer claims -/

def articleFedEarnings : Article :=
  { title := "Fed Earnings Season", description := "", url := "a", publishedAt := 0 }

def articleEarningsOnly : Article :=
  { title := "earnings", description := "", url := "b", publishedAt := 0 }

def articleNoKeywords : Article :=
  { title := "Quiet day on Wall Street", description := "", url := "c", publishedAt := 0 }

def articleThreePositive : Article :=
  { title := "gain rise profit", description := "", url := "d", publishedAt := 0 }

def articleOnePosOneNeg : Article :=
  { title := "gain fall", description := "", url := "e", publishedAt := 0 }

def articleCalm : Article :=
  { title := "calm morning review", description := "", url := "f", publishedAt := 0 }

def articleBreaking : Article :=
  { title := "breaking calm morning", description := "", url := "g", publishedAt := 0 }

/-! ### Claim C4 — market-impact classification -/

/-- C4: the classification is exactly the threshold rule on the two
case-insensitive keyword-match counts (at least two high-impact matches give
`high`; otherwise one high-impact match or two medium-impact matches give
`medium`; otherwise `low`), and on the particular contents named by the claim:
a title containing "fed" and "earnings" classifies `high`, a title containing
just "earnings" classifies `medium`, and keyword-free content classifies
`low`. -/
theorem marketImpact_classification :
    (∀ a : Article,
      (analyzeMarketImpact a = "high" ↔ 2 ≤ highImpactCount a) ∧
      (analyzeMarketImpact a = "medium" ↔
        (highImpactCount a ≤ 1 ∧ (1 ≤ highImpactCount a ∨ 2 ≤ mediumImpactCount a))) ∧
      (analyzeMarketImpact a = "low" ↔
        (highImpactCount a = 0 ∧ mediumImpactCount a ≤ 1))) ∧
    jsIncludes (articleContent articleFedEarnings) "fed" = true ∧
    jsIncludes (articleContent articleFedEarnings) "earnings" = true ∧
    analyzeMarketImpact articleFedEarnings = "high" ∧
    highImpactCount articleEarningsOnly = 1 ∧
    mediumImpactCount articleEarningsOnly = 0 ∧
    analyzeMarketImpact articleEarningsOnly = "medium" ∧
    highImpactCount articleNoKeywords = 0 ∧
    mediumImpactCount articleNoKeywords = 0 ∧
    analyzeMarketImpact articleNoKeywords = "low" := by
  refine ⟨?_, by decide, by decide, by decide, by decide, by decide, by decide,
    by decide, by decide, by decide⟩
  intro a
  have hne1 : ("high" : String) ≠ "medium" := by decide
  have hne2 : ("high" : String) ≠ "low" := by decide
  have hne3 : ("medium" : String) ≠ "low" := by decide
  unfold analyzeMarketImpact
  split_ifs with h1 h2 <;>
    refine ⟨?_, ?_, ?_⟩ <;>
    simp [hne1, hne2, hne3, hne1.symm, hne2.symm, hne3.symm, h1] <;>
    omega

/-! ### Claim C5 — sentiment classification -/

/-- C5: the sentiment label is the threshold rule on the difference between
positive-word and negative-word match counts (at least 2 gives `positive`, at
most -2 gives `negative`, otherwise `neutral`); content with three positive
matches and none negative is `positive`, and content with one of each is
`neutral`. -/
theorem sentiment_classification :
    (∀ a : Article,
      (analyzeAdvancedSentiment a = "positive" ↔ 2 ≤ sentimentScore a) ∧
      (analyzeAdvancedSentiment a = "negative" ↔ sentimentScore a ≤ -2) ∧
      (analyzeAdvancedSentiment a = "neutral" ↔
        (-1 ≤ sentimentScore a ∧ sentimentScore a ≤ 1))) ∧
    positiveCount articleThreePositive = 3 ∧
    negativeCount articleThreePositive = 0 ∧
    analyzeAdvancedSentiment articleThreePositive = "positive" ∧
    positiveCount articleOnePosOneNeg = 1 ∧
    negativeCount articleOnePosOneNeg = 1 ∧
    analyzeAdvancedSentiment articleOnePosOneNeg = "neutral" := by
  refine ⟨?_, by decide, by decide, by decide, by decide, by decide, by decide⟩
  intro a
  have hne1 : ("positive" : String) ≠ "negative" := by decide
  have hne2 : ("positive" : String) ≠ "neutral" := by decide
  have hne3 : ("negative" : String) ≠ "neutral" := by decide
  unfold analyzeAdvancedSentiment
  split_ifs with h1 h2 <;>
    refine ⟨?_, ?_, ?_⟩ <;>
    simp [hne1, hne2, hne3, hne1.symm, hne2.symm, hne3.symm, h1] <;>
    omega

/-! ### Claim C6 — urgency score -/

/-- C6: the urgency of an article published `h` hours before `now` is
`max(0, 24 − h)/24`, plus a flat `0.3` exactly when the title contains a
breaking-news keyword, clamped to at most 1; an item published right now
without a breaking keyword scores 1, an item 24 (or 30) hours old scores 0,
the breaking bonus is clamped at 1 for a fresh item, and a 20-hour-old
breaking item scores `4/24 + 0.3 = 7/15`. -/
theorem urgency_formula :
    (∀ (now : ℚ) (a : Article),
      calculateUrgencyScore now a =
        min 1 (max 0 (24 - (now - a.publishedAt) / (1000 * 60 * 60)) / 24
          + (if hasBreakingTitle a then 0.3 else 0))) ∧
    hasBreakingTitle articleCalm = false ∧
    calculateUrgencyScore 0 articleCalm = 1 ∧
    calculateUrgencyScore 86400000 articleCalm = 0 ∧
    calculateUrgencyScore 108000000 articleCalm = 0 ∧
    hasBreakingTitle articleBreaking = true ∧
    calculateUrgencyScore 0 articleBreaking = 1 ∧
    calculateUrgencyScore 72000000 articleBreaking = 7 / 15 := by
  refine ⟨?_, by decide, ?_, ?_, ?_, by decide, ?_, ?_⟩
  · intro now a
    unfold calculateUrgencyScore
    cases h : hasBreakingTitle a <;> simp [h]
  · unfold calculateUrgencyScore
    rw [show hasBreakingTitle articleCalm = false from by decide]
    norm_num [articleCalm, min_def, max_def]
  · unfold calculateUrgencyScore
    rw [show hasBreakingTitle articleCalm = false from by decide]
    norm_num [articleCalm, min_def, max_def]
  · unfold calculateUrgencyScore
    rw [show hasBreakingTitle articleCalm = false from by decide]
    norm_num [articleCalm, min_def, max_def]
  · unfold calculateUrgencyScore
    rw [show hasBreakingTitle articleBreaking = true from by decide]
    norm_num [articleBreaking, min_def, max_def]
  · unfold calculateUrgencyScore
    rw [show hasBreakingTitle articleBreaking = true from by decide]
    norm_num [articleBreaking, min_def, max_def]

/-! ### Claim C3 — adapter failure behaviour -/

def emptyAdEnv : AdEnv :=
  { googleAdsenseClient := none, propellerAdsApiKey := none,
    adsterraApiKey := none, mediaNetCustomer := none }

/-- C3 counterexample: the claim requires every adapter to short-circuit to a
`Failed("missing_config")` result when a required credential is absent.  The
AdSense adapter, called with no `GOOGLE_ADSENSE_CLIENT` in the environment,
nevertheless answers `success: true` (the missing value would simply be
interpolated into the markup); it has no failure result at all. -/
theorem adsense_missing_credential_still_succeeds :
    emptyAdEnv.googleAdsenseClient = none ∧
    (adsenseAdapter emptyAdEnv "banner").success = true :=
  ⟨rfl, rfl⟩

/-- C3 amended: no adapter lets an error propagate, but the failure shapes
differ from the claim.  A news adapter whose API key is falsy short-circuits
to an *empty fulfilled list* — `(false, [])`, no upstream call, not a
distinguishable `Failed("missing_config")` — and it also returns `[]` on an
upstream error or a payload without an `articles` field; the ad-network
adapters never signal failure at all: they return `success: true` whatever
the environment contains. -/
theorem adapters_never_fail_amended (newsApiKey : Option String)
    (up : UpstreamNews) (env : AdEnv) (ty : String)
    (hkey : jsFalsyStr newsApiKey = true) :
    fetchNewsAPI newsApiKey up = (false, []) ∧
    fetchNewsAPI (some "k") .failure = (true, []) ∧
    fetchNewsAPI (some "k") (.response none) = (true, []) ∧
    (adsenseAdapter env ty).success = true ∧
    (propellerAdsAdapter env ty).success = true ∧
    (adsterraAdapter env ty).success = true ∧
    (mediaNetAdapter env ty).success = true := by
  refine ⟨?_, rfl, rfl, rfl, rfl, rfl, rfl⟩
  unfold fetchNewsAPI
  rw [if_pos hkey]

/-- C3 witness: the concrete missing-key adapter call. -/
theorem adapters_never_fail_amended_witness :
    fetchNewsAPI none (.response (some [])) = (false, []) :=
  (adapters_never_fail_amended none (.response (some [])) emptyAdEnv "banner" rfl).1

/-! ### Claim C7 — the candidate-score formula -/

/-- Modelled from the spec: the candidate network score of section 4.4,
`0.4×min(totalRevenue/1000,1) + 0.3×successRate +
0.2×(1000−configuredLoadTimeMs)/1000 + 0.1×configuredFillRate`, to be compared
with `calculateNetworkScore` of the source. -/
def specNetworkScore (c : Config) (p : Perf) : ℚ :=
  0.4 * min (p.totalRevenue / 1000) 1 + 0.3 * p.successRate
    + 0.2 * ((1000 - c.loadTime) / 1000) + 0.1 * c.fillRate

/-- The metrics state after a single failed AdSense attempt on a fresh
process: its recorded entry has `successRate = 0`. -/
def adsenseFailOnce : RevenueMetrics :=
  updatePerformanceMetrics initialRevenueMetrics "adsense" false 0

def perfZero : Perf :=
  { successRate := 0, totalRevenue := 0, requests := 1, successes := 0 }

/-- C7 counterexample: for the reachable recorded entry
`{totalRevenue := 0, successRate := 0}` the code's score is `0.501` — the JS
`performance.successRate || 0.8` replaces the falsy `0` by `0.8` — while the
claimed formula gives `0.261`. -/
theorem networkScore_zero_successRate_counterexample :
    adsenseFailOnce.networkPerformance.lookup "adsense" = some perfZero ∧
    calculateNetworkScore adsenseFailOnce "adsense" = 0.501 ∧
    specNetworkScore adsenseConfig perfZero = 0.261 ∧
    calculateNetworkScore adsenseFailOnce "adsense"
      ≠ specNetworkScore adsenseConfig perfZero := by
  have hlook : adsenseFailOnce.networkPerformance.lookup "adsense" = some perfZero := by
    have h := updatePerformanceMetrics_lookup_fresh initialRevenueMetrics "adsense"
      false 0 rfl
    rw [adsenseFailOnce, h]
    norm_num [perfZero]
  have hv : calculateNetworkScore adsenseFailOnce "adsense" = 0.501 := by
    unfold calculateNetworkScore
    rw [show AD_NETWORKS.lookup "adsense" = some adsenseConfig from rfl, hlook]
    norm_num [networkScore, perfZero, adsenseConfig, min_def]
  have hs : specNetworkScore adsenseConfig perfZero = 0.261 := by
    norm_num [specNetworkScore, perfZero, adsenseConfig, min_def]
  refine ⟨hlook, hv, hs, ?_⟩
  rw [hv, hs]
  norm_num

/-- C7 amended: for every network of the table with a recorded performance
entry, the score is the claimed weighted sum **except** that a recorded
`successRate` of `0` (falsy in JS) is replaced by the default `0.8`. -/
theorem networkScore_formula_amended (m : RevenueMetrics) (k : String)
    (c : Config) (p : Perf) (hc : AD_NETWORKS.lookup k = some c)
    (hp : m.networkPerformance.lookup k = some p) :
    calculateNetworkScore m k =
      0.4 * min (p.totalRevenue / 1000) 1
        + 0.3 * (if p.successRate = 0 then 0.8 else p.successRate)
        + 0.2 * ((1000 - c.loadTime) / 1000) + 0.1 * c.fillRate := by
  unfold calculateNetworkScore
  rw [hc, hp]
  simp only [networkScore, Option.getD_some]
  ring

def perfStrong : Perf :=
  { successRate := 0.5, totalRevenue := 0.8, requests := 2, successes := 1 }

def metricsWithAdsensePerf : RevenueMetrics :=
  { totalRevenue := 0.8, networkPerformance := [("adsense", perfStrong)],
    bestPerforming := "adsense" }

/-- C7 witness: the amended formula evaluated at a concrete recorded entry. -/
theorem networkScore_formula_amended_witness :
    calculateNetworkScore metricsWithAdsensePerf "adsense"
      = 0.4 * min (perfStrong.totalRevenue / 1000) 1
        + 0.3 * (if perfStrong.successRate = 0 then 0.8 else perfStrong.successRate)
        + 0.2 * ((1000 - adsenseConfig.loadTime) / 1000) + 0.1 * adsenseConfig.fillRate :=
  networkScore_formula_amended metricsWithAdsensePerf "adsense" adsenseConfig
    perfStrong rfl rfl

/-! ### Claim C8 — ranking by recorded performance -/

def twinEntries : List (String × Config) :=
  [("a", adsenseConfig), ("b", adsenseConfig)]

def twinMetrics : RevenueMetrics :=
  { totalRevenue := 0.8, networkPerformance := [("a", perfStrong), ("b", perfZero)],
    bestPerforming := "a" }

/-- C8 counterexample: two enabled networks with identical configuration,
where `a` has strictly higher recorded `totalRevenue` *and* `successRate` than
`b` — yet `b` is ranked (hence attempted) first, because `b`'s zero (falsy)
`successRate` is scored as the `0.8` default.  The score function is therefore
not monotone in recorded performance. -/
theorem ranking_not_monotone_counterexample :
    perfZero.totalRevenue < perfStrong.totalRevenue ∧
    perfZero.successRate < perfStrong.successRate ∧
    entryScore twinMetrics ("a", adsenseConfig)
      < entryScore twinMetrics ("b", adsenseConfig) ∧
    rankEntries twinEntries twinMetrics
      = [("b", adsenseConfig), ("a", adsenseConfig)] := by
  have hsc : entryScore twinMetrics ("a", adsenseConfig)
      < entryScore twinMetrics ("b", adsenseConfig) := by
    unfold entryScore
    rw [show twinMetrics.networkPerformance.lookup "a" = some perfStrong from rfl,
      show twinMetrics.networkPerformance.lookup "b" = some perfZero from rfl]
    norm_num [networkScore, perfStrong, perfZero, adsenseConfig, min_def]
  refine ⟨by norm_num [perfZero, perfStrong], by norm_num [perfZero, perfStrong],
    hsc, ?_⟩
  unfold rankEntries
  rw [show twinEntries.filter (fun e => e.2.enabled) = twinEntries from rfl]
  rw [show twinEntries = [("a", adsenseConfig), ("b", adsenseConfig)] from rfl]
  simp only [List.insertionSort, List.orderedInsert]
  rw [if_neg (show ¬ adRel twinMetrics ("a", adsenseConfig) ("b", adsenseConfig) from
    not_le.mpr hsc)]

/-- C8 amended: the claim holds once both recorded success rates are nonzero
(so the `|| 0.8` default is not triggered): among entries with identical
configured `loadTime` and `fillRate`, a network with strictly higher recorded
`totalRevenue` and `successRate` is placed — and hence attempted — before the
other in the descending-score ranking. -/
theorem ranking_monotone_amended (entries : List (String × Config))
    (m : RevenueMetrics) (kA kB : String) (cA cB : Config) (pA pB : Perf)
    (hA : (kA, cA) ∈ entries) (hB : (kB, cB) ∈ entries) (hk : kA ≠ kB)
    (heA : cA.enabled = true) (heB : cB.enabled = true)
    (hlt : cA.loadTime = cB.loadTime) (hfr : cA.fillRate = cB.fillRate)
    (hpA : m.networkPerformance.lookup kA = some pA)
    (hpB : m.networkPerformance.lookup kB = some pB)
    (hrev : pB.totalRevenue < pA.totalRevenue)
    (hsr : pB.successRate < pA.successRate) (hpos : 0 < pB.successRate) :
    List.Sublist [(kA, cA), (kB, cB)] (rankEntries entries m) := by
  have hscore : entryScore m (kB, cB) < entryScore m (kA, cA) := by
    unfold entryScore
    rw [show ((kA, cA) : String × Config).1 = kA from rfl,
      show ((kB, cB) : String × Config).1 = kB from rfl, hpA, hpB]
    exact networkScore_lt_of_dominates cA cB pA pB hlt hfr hrev hsr hpos
  have hp : (rankEntries entries m).Pairwise (adRel m) :=
    List.sorted_insertionSort (adRel m) (entries.filter fun e => e.2.enabled)
  have hmemA : (kA, cA) ∈ rankEntries entries m := by
    unfold rankEntries
    rw [(List.perm_insertionSort (adRel m) _).mem_iff]
    exact List.mem_filter.mpr ⟨hA, by simp [heA]⟩
  have hmemB : (kB, cB) ∈ rankEntries entries m := by
    unfold rankEntries
    rw [(List.perm_insertionSort (adRel m) _).mem_iff]
    exact List.mem_filter.mpr ⟨hB, by simp [heB]⟩
  have hne : (kA, cA) ≠ (kB, cB) := fun h => hk (congrArg Prod.fst h)
  exact pairwise_pair_sublist hp hmemA hmemB hne (not_le.mpr hscore)

def perfWeak : Perf :=
  { successRate := 0.25, totalRevenue := 0.5, requests := 4, successes := 1 }

def twinMetricsPos : RevenueMetrics :=
  { totalRevenue := 1.3, networkPerformance := [("a", perfStrong), ("b", perfWeak)],
    bestPerforming := "a" }

/-- C8 witness: with both recorded success rates nonzero, the dominating
network is ranked first. -/
theorem ranking_monotone_amended_witness :
    List.Sublist [("a", adsenseConfig), ("b", adsenseConfig)]
      (rankEntries twinEntries twinMetricsPos) :=
  ranking_monotone_amended twinEntries twinMetricsPos "a" "b"
    adsenseConfig adsenseConfig perfStrong perfWeak
    (List.mem_cons_self _ _) (List.mem_cons_of_mem _ (List.mem_cons_self _ _))
    (by decide) rfl rfl rfl rfl rfl rfl
    (by norm_num [perfWeak, perfStrong])
    (by norm_num [perfWeak, perfStrong])
    (by norm_num [perfWeak])

/-! ### Claim C9 — the attempt loop and the performance records -/

/-- Every key the attempt loop can visit is one of the four configured
network names. -/
theorem rankedKeys_subset (m : RevenueMetrics) :
    ∀ k ∈ rankedKeys m, k ∈ ["adsense", "propellerads", "adsterra", "medianet"] := by
  intro k hk
  unfold rankedKeys enabledNetworks rankEntries at hk
  rcases List.mem_map.mp hk with ⟨e, he, rfl⟩
  have h1 := (List.perm_insertionSort (adRel m) _).mem_iff.mp he
  have h2 := (List.mem_filter.mp h1).1
  simp only [AD_NETWORKS, List.mem_cons, List.not_mem_nil, or_false] at h2
  rcases h2 with rfl | rfl | rfl | rfl <;> simp

/-- C9: under the source's adapter behaviour (a non-thrown attempt is a
successful ad — `generateAd_success`), the loop (1) walks the ranked keys,
records a failed attempt (`requests` incremented, nothing else) for every
leading thrown attempt, and stops at the first non-thrown attempt, whose ad it
returns after recording the success — so every attempted network's record is
updated before the next is tried and the first success is used; (2) never
touches the record of a network it does not attempt; (3) returns the fallback
ad with only the per-network failure records (none for `"fallback"`, by (2))
when every attempt throws; and (4) a success update increments `requests` and
`successes` and adds the revenue, a failure update increments only
`requests`, both recomputing `successRate = successes/requests`. -/
theorem selection_loop_records_every_attempt (outcome : String → AttemptResult)
    (m : RevenueMetrics)
    (hOk : ∀ k ∈ rankedKeys m, okAttempt (outcome k) = true) :
    (selectLoop outcome m (rankedKeys m) =
      match (rankedKeys m).dropWhile (isExnAttempt outcome) with
      | [] => (none, ((rankedKeys m).takeWhile (isExnAttempt outcome)).foldl failUpd m)
      | k :: _ =>
        (adOfAttempt (outcome k),
         updatePerformanceMetrics
           (((rankedKeys m).takeWhile (isExnAttempt outcome)).foldl failUpd m)
           k true (revOfAttempt (outcome k)))) ∧
    (∀ k', k' ∉ rankedKeys m →
      ((selectLoop outcome m (rankedKeys m)).2.networkPerformance).lookup k'
        = m.networkPerformance.lookup k') ∧
    ((rankedKeys m).dropWhile (isExnAttempt outcome) = [] →
      getRevenueOptimizedAd outcome m
        = (getFallbackAd, (rankedKeys m).foldl failUpd m)) ∧
    (∀ (m' : RevenueMetrics) (k : String) (rev : ℚ) (p : Perf),
      m'.networkPerformance.lookup k = some p →
      ((updatePerformanceMetrics m' k true rev).networkPerformance).lookup k
        = some { successRate := ((p.successes + 1 : ℕ) : ℚ) / ((p.requests + 1 : ℕ) : ℚ)
                 totalRevenue := p.totalRevenue + rev
                 requests := p.requests + 1
                 successes := p.successes + 1 } ∧
      ((updatePerformanceMetrics m' k false 0).networkPerformance).lookup k
        = some { successRate := ((p.successes : ℕ) : ℚ) / ((p.requests + 1 : ℕ) : ℚ)
                 totalRevenue := p.totalRevenue
                 requests := p.requests + 1
                 successes := p.successes }) := by
  have hspec := selectLoop_spec outcome (rankedKeys m) m hOk
  refine ⟨hspec, ?_, ?_, ?_⟩
  · intro k' hk'
    rw [hspec]
    cases hdrop : (rankedKeys m).dropWhile (isExnAttempt outcome) with
    | nil =>
      exact foldl_failUpd_lookup_ne k' _ m
        (fun hc => hk' ((List.takeWhile_sublist _).mem hc))
    | cons k t =>
      have hkmem : k ∈ rankedKeys m :=
        (List.dropWhile_sublist _).mem (hdrop ▸ List.mem_cons_self k t)
      show ((updatePerformanceMetrics
          (((rankedKeys m).takeWhile (isExnAttempt outcome)).foldl failUpd m)
          k true (revOfAttempt (outcome k))).networkPerformance).lookup k'
        = m.networkPerformance.lookup k'
      rw [updatePerformanceMetrics_lookup_ne _ _ _ _ _
        (fun he => hk' (by rw [he]; exact hkmem))]
      exact foldl_failUpd_lookup_ne k' _ m
        (fun hc => hk' ((List.takeWhile_sublist _).mem hc))
  · intro hdrop
    have hsplit : (rankedKeys m).takeWhile (isExnAttempt outcome)
        ++ (rankedKeys m).dropWhile (isExnAttempt outcome) = rankedKeys m :=
      List.takeWhile_append_dropWhile (isExnAttempt outcome) (rankedKeys m)
    rw [hdrop, List.append_nil] at hsplit
    unfold getRevenueOptimizedAd
    rw [hspec, hdrop]
    show (getFallbackAd, ((rankedKeys m).takeWhile (isExnAttempt outcome)).foldl failUpd m)
        = (getFallbackAd, (rankedKeys m).foldl failUpd m)
    rw [hsplit]
  · intro m' k rev p hp
    constructor
    · rw [updatePerformanceMetrics_lookup_eq m' k true rev p hp]
      simp
    · rw [updatePerformanceMetrics_lookup_eq m' k false 0 p hp]
      simp

/-- The adapter-outcome function induced by the source's `generateAd` for a
banner request: every configured network returns a successful ad, an unknown
key returns `null`. -/
def bannerOutcome : String → AttemptResult :=
  fun k => .ret (generateAd emptyAdEnv k "banner")

/-- C9 witness: with the real adapters on a fresh process, the loop leaves the
(never-attempted) `"fallback"` record untouched. -/
theorem selection_loop_records_every_attempt_witness :
    ((selectLoop bannerOutcome initialRevenueMetrics
        (rankedKeys initialRevenueMetrics)).2.networkPerformance).lookup "fallback"
      = initialRevenueMetrics.networkPerformance.lookup "fallback" :=
  (selection_loop_records_every_attempt bannerOutcome initialRevenueMetrics
      (fun k hk => by
        have h4 := rankedKeys_subset initialRevenueMetrics k hk
        fin_cases h4 <;> decide)).2.1
    "fallback"
    (fun hc => by
      have h4 := rankedKeys_subset initialRevenueMetrics "fallback" hc
      simp at h4)
